import Mathlib

/-!
Verification of the CLAM renal-biopsy pair-mining core against its
specification.  The development embeds, in Lean, the two subsystems the
spec calls THE CORE:

* the Pair Miner (`src/renal_biopsy_scripts/data.py`,
  `generate_patch_pairs`): resolution normalisation, pairwise
  classification into similar/dissimilar index pairs, per-slide shard
  emission;
* the Sharded Dataset Index (`src/renal_biopsy_scripts/dataset.py`,
  class `PatchPairs`): building the global bucket index over a shard
  directory and resolving a flat integer index back to a
  (slide, category, local offset).

Numeric values that are Python floats are modelled as rationals; the
single genuinely irrational step (the `sqrt` inside `scipy.cdist` and
the `np.sqrt(2)` factor) is abstracted by passing the computed distance
matrix `ℕ → ℕ → ℚ` to the classifier, exactly at the boundary where the
Python code hands the `distances` array to the comparison expressions.
Symmetry and zero-diagonal of that matrix are proved for its squared
Euclidean core (`cdistSq`) and transported along any scaling map that
fixes 0, which covers `d = sqrt 2 * mm * sqrt (cdistSq)`.
-/

namespace CLAM

/-- A Python `dict` as an association list in insertion order:
assignment `d[k] = v` replaces the value in place when the key is
present (the key keeps its original position) and appends otherwise. -/
def dictInsert {κ α : Type} [DecidableEq κ] (l : List (κ × α)) (k : κ) (v : α) :
    List (κ × α) :=
  if l.any (fun e => decide (e.1 = k)) then
    l.map (fun e => if e.1 = k then (k, v) else e)
  else
    l ++ [(k, v)]

/-! ### Pair Classifier (`data.py`, lines 53-55)

`np.argwhere(cond)` over an `n × n` boolean matrix lists the index pairs
of the `True` entries in row-major order. -/

/-- Row-major scan of an `n × n` boolean matrix: the embedding of
`np.argwhere` over a square matrix of shape `(n, n)`. -/
def argwhere2 (n : ℕ) (p : ℕ → ℕ → Bool) : List (ℕ × ℕ) :=
  (List.range n).flatMap (fun i =>
    (List.range n).filterMap (fun j => if p i j then some (i, j) else none))

/-- `similar = np.argwhere((distances < maximim_similar_mm) & (distances > 0))`
(`data.py` line 54), with `distances` the computed `n × n` matrix. -/
def similarPairs (n : ℕ) (d : ℕ → ℕ → ℚ) (maximim_similar_mm : ℚ) :
    List (ℕ × ℕ) :=
  argwhere2 n (fun i j => decide (d i j < maximim_similar_mm) && decide (0 < d i j))

/-- `dissimilar = np.argwhere(distances > minimum_dissimilar_mm)`
(`data.py` line 55). -/
def dissimilarPairs (n : ℕ) (d : ℕ → ℕ → ℚ) (minimum_dissimilar_mm : ℚ) :
    List (ℕ × ℕ) :=
  argwhere2 n (fun i j => decide (minimum_dissimilar_mm < d i j))

/-- Squared Euclidean distance between the `i`-th and `j`-th patch
coordinates: the core of `cdist(coords, coords)` (`data.py` line 53),
kept squared so that it stays rational. -/
def cdistSq (coords : List (ℚ × ℚ)) (i j : ℕ) : ℚ :=
  ((coords.getD i (0, 0)).1 - (coords.getD j (0, 0)).1) ^ 2 +
    ((coords.getD i (0, 0)).2 - (coords.getD j (0, 0)).2) ^ 2

/-! ### Pair Miner (`data.py`, `generate_patch_pairs`) -/

/-- `MPP_PROPS = ['openslide.mpp-x', 'openslide.mpp-x']` (`data.py`
line 30): the list as written in the source, with the x-axis key listed
twice and the y-axis key never mentioned. -/
def MPP_PROPS : List String := ["openslide.mpp-x", "openslide.mpp-x"]

/-- The resolution-normalisation steps of `generate_patch_pairs`
(`data.py` lines 44-48): fail when `MPP_PROPS[0]` is absent from the
slide's properties, else read every key of `MPP_PROPS` and return
`max([(mpp * downsample) / 1000 for mpp in microns_per_pixel_lvl0])`. -/
def computeMmPerPixel (props : List (String × ℚ)) (downsample : ℚ) :
    Option ℚ :=
  if (props.lookup (MPP_PROPS.getD 0 "")).isNone then
    none
  else
    ((MPP_PROPS.filterMap (fun k => props.lookup k)).map
      (fun mpp => mpp * downsample / 1000)).max?

/-- The Resolution Normalizer as the spec states it:
`mm_per_pixel = max(mpp_x, mpp_y) * D / 1000`.  This definition follows
the spec's words and exists only to be compared with
`computeMmPerPixel`, which follows the source. -/
def specMmPerPixel (mpp_x mpp_y D : ℚ) : ℚ :=
  max mpp_x mpp_y * D / 1000

/-- One slide as the mining loop sees it: an identifier, the property
map exposed by `openslide`, and the patch data handed to the
classifier.  `num_coords` is the number of rows of `coords`;
`dmat` stands for the computed `distances` array
(`np.sqrt(2) * millimeters_per_pixel * cdist(coords, coords)`), the
rational-valued matrix the classifier compares against the
thresholds. -/
structure Slide where
  slide_id : String
  props : List (String × ℚ)
  num_coords : ℕ
  dmat : ℕ → ℕ → ℚ

/-- The configuration surface of `generate_patch_pairs` (`data.py`
lines 19-28), field names as in the source (including the
`maximim_similar_mm` spelling). -/
structure MineParams where
  downsample : ℚ
  maximim_similar_mm : ℚ
  minimum_dissimilar_mm : ℚ
  num_similar_per_slide : ℕ
  num_dissimilar_per_slide : ℕ
  auto_skip : Bool

/-- The shard store: `save_directory` as a map from slide id to the
persisted shard content (similar pairs, dissimilar pairs). -/
abbrev Store : Type := List (String × (List (ℕ × ℕ) × List (ℕ × ℕ)))

/-- `os.path.exists(save_file)` for `save_file = save_directory / (slide_id + ".h5")`. -/
def storeHas (store : Store) (sid : String) : Bool :=
  store.any (fun e => e.1 == sid)

/-- The exceptions a single iteration of the mining loop can raise. -/
inductive MineErr : Type
  | noMpp (sid : String)
  | tooFewSimilar (sid : String) (found required : ℕ)
  | tooFewDissimilar (sid : String) (found required : ℕ)
deriving DecidableEq, Repr

/-- One iteration of the `for slide_file in os.listdir(slides_directory)`
loop of `generate_patch_pairs` (`data.py` lines 36-65): skip when
`auto_skip and os.path.exists(save_file)`; raise when `MPP_PROPS[0]` is
missing from the slide properties; classify; raise when a category has
fewer pairs than required; otherwise write the shard.  The source's
local variables `similar` and `dissimilar` are inlined at their use
sites. -/
def mineSlide (p : MineParams) (store : Store) (s : Slide) :
    Except MineErr Store :=
  if p.auto_skip && storeHas store s.slide_id then
    .ok store
  else if (s.props.lookup (MPP_PROPS.getD 0 "")).isNone then
    .error (.noMpp s.slide_id)
  else if (similarPairs s.num_coords s.dmat p.maximim_similar_mm).length <
      p.num_similar_per_slide then
    .error (.tooFewSimilar s.slide_id
      (similarPairs s.num_coords s.dmat p.maximim_similar_mm).length
      p.num_similar_per_slide)
  else if (dissimilarPairs s.num_coords s.dmat p.minimum_dissimilar_mm).length <
      p.num_dissimilar_per_slide then
    .error (.tooFewDissimilar s.slide_id
      (dissimilarPairs s.num_coords s.dmat p.minimum_dissimilar_mm).length
      p.num_dissimilar_per_slide)
  else
    .ok (dictInsert store s.slide_id
      (similarPairs s.num_coords s.dmat p.maximim_similar_mm,
        dissimilarPairs s.num_coords s.dmat p.minimum_dissimilar_mm))

/-- The whole batch run of `generate_patch_pairs`: iterate the slides in
directory order; an uncaught exception stops the loop at once, leaving
the shards written so far on disk and surfacing the error. -/
def generate_patch_pairs (p : MineParams) (slides : List Slide)
    (store : Store) : Store × Option MineErr :=
  match slides with
  | [] => (store, none)
  | s :: rest =>
    match mineSlide p store s with
    | .error e => (store, some e)
    | .ok store2 => generate_patch_pairs p rest store2

/-! ### Sharded Dataset Index (`dataset.py`, class `PatchPairs`) -/

/-- What opening one shard file with `h5py.File(pairs_file, 'r')` and
reading its `"similar"` / `"dissimilar"` datasets can yield:
both datasets present (`good`), the file opens but `f["similar"]`
raises `KeyError` (`noSim`), the file opens and `"similar"` is present
but `f["dissimilar"]` raises (`noDis`), or `h5py.File` itself raises an
`OSError` (`unreadable`). -/
inductive ShardContent : Type
  | good (sim dis : List (ℕ × ℕ))
  | noSim
  | noDis (sim : List (ℕ × ℕ))
  | unreadable
deriving DecidableEq, Repr

/-- How many pairs the counting loop
`for label in ("similar", "dissimilar"): num_pairs += len(f[label])`
adds for one shard before a `KeyError` interrupts it. -/
def shardCount : ShardContent → ℕ
  | .good sim dis => sim.length + dis.length
  | .noSim => 0
  | .noDis sim => sim.length
  | .unreadable => 0

/-- `True` when the shard file itself opens (anything but an `OSError`). -/
def shardReadable : ShardContent → Bool
  | .unreadable => false
  | _ => true

/-- `True` when the counting loop hits the `except (KeyError, ValueError)`
branch and prints `"Problem with <file>"`. -/
def shardProblem : ShardContent → Bool
  | .noSim => true
  | .noDis _ => true
  | _ => false

/-- `True` when both datasets are present. -/
def shardGood : ShardContent → Bool
  | .good _ _ => true
  | _ => false

/-- A shard directory: the files `os.listdir(pairs_directory)` finds,
as (slide id, shard content) in listing order. -/
abbrev ShardDir : Type := List (String × ShardContent)

/-- The state `PatchPairs.__init__` builds: `buckets_to_slide` is a
Python dict keyed by `(start, stop)`, `num_pairs` the running total,
`reported` the shard files named by a `"Problem with"` message. -/
structure IndexState where
  buckets_to_slide : List ((ℕ × ℕ) × String)
  num_pairs : ℕ
  reported : List String
deriving DecidableEq, Repr

/-- The index build fails only when `h5py.File` raises: the `OSError`
is not caught by `except (KeyError, ValueError)` and aborts
`__init__`. -/
inductive BuildErr : Type
  | shardOpenError (sid : String)
deriving DecidableEq, Repr

/-- The per-slide loop of `PatchPairs.__init__` (`dataset.py` lines
21-31): `start = num_pairs`; open the shard (an open failure aborts the
whole build); add `len(f["similar"])` then `len(f["dissimilar"])` to
`num_pairs`, a `KeyError` mid-way being caught and printed;
`buckets_to_slide[(start, stop)] = slide_id`. -/
def buildAux : ShardDir → IndexState → Except BuildErr IndexState
  | [], st => .ok st
  | (sid, c) :: rest, st =>
    if shardReadable c then
      let start := st.num_pairs
      let stop := start + shardCount c
      buildAux rest
        { buckets_to_slide := dictInsert st.buckets_to_slide (start, stop) sid
          num_pairs := stop
          reported := st.reported ++ (if shardProblem c then [sid] else []) }
    else
      .error (.shardOpenError sid)

/-- `PatchPairs.__init__` over a shard directory, from the empty
state. -/
def buildIndex (dir : ShardDir) : Except BuildErr IndexState :=
  buildAux dir { buckets_to_slide := [], num_pairs := 0, reported := [] }

/-- Well-formedness of the bucket map: every range `(start, stop)` is
ordered and bounded by `num_pairs`, and every global index below
`num_pairs` lies in exactly one range (half-open reading of the
ranges).  This is the "no gaps and no overlaps" partition property. -/
def bucketsWF (st : IndexState) : Prop :=
  (∀ r ∈ st.buckets_to_slide.map Prod.fst, r.1 ≤ r.2 ∧ r.2 ≤ st.num_pairs) ∧
    (∀ g, g < st.num_pairs →
      ∃! r : ℕ × ℕ, r ∈ st.buckets_to_slide.map Prod.fst ∧ r.1 ≤ g ∧ g < r.2)

/-- `PatchPairs.get_bucket_from_index` (`dataset.py` lines 39-42):
scan the dict keys in insertion order and return the first `(bmin, bmax)`
with `index > bmin and index < bmax`; fall through to `None`. -/
def get_bucket_from_index (st : IndexState) (index : ℕ) : Option (ℕ × ℕ) :=
  st.buckets_to_slide.findSome? (fun e =>
    if e.1.1 < index ∧ index < e.1.2 then some e.1 else none)

/-- The exceptions `PatchPairs.__getitem__` can raise: `KeyError`
(dict lookup of `None`, or a missing h5 dataset), an h5py out-of-range
index error, or an `OSError` opening the shard file. -/
inductive GetErr : Type
  | keyError
  | indexError
  | osError
deriving DecidableEq, Repr

/-- `PatchPairs.__getitem__` (`dataset.py` lines 47-62) up to the patch
fetch: resolve the bucket, look the bucket up in `buckets_to_slide`,
reopen the slide's shard file, set `patch_index = index - bucket[0]`,
and return the label together with the index pair
`f["similar"][patch_index]` when `patch_index < len(f["similar"])`,
else `f["dissimilar"][patch_index]`. -/
def getitem (dir : ShardDir) (st : IndexState) (index : ℕ) :
    Except GetErr (String × (ℕ × ℕ)) :=
  match get_bucket_from_index st index with
  | none => .error .keyError
  | some bucket =>
    match st.buckets_to_slide.lookup bucket with
    | none => .error .keyError
    | some slide_id =>
      match dir.lookup slide_id with
      | none => .error .osError
      | some c =>
        match c with
        | .unreadable => .error .osError
        | .noSim => .error .keyError
        | .noDis sim =>
          let patch_index := index - bucket.1
          if patch_index < sim.length then
            .ok ("similar", sim.getD patch_index (0, 0))
          else
            .error .keyError
        | .good sim dis =>
          let patch_index := index - bucket.1
          if patch_index < sim.length then
            .ok ("similar", sim.getD patch_index (0, 0))
          else
            match dis.get? patch_index with
            | some pr => .ok ("dissimilar", pr)
            | none => .error .indexError

/-! ### Concrete instances used by the witness theorems -/

/-- A small mining configuration: thresholds 3 and 1 mm, one pair of
each kind required, `auto_skip` on. -/
def demoParams : MineParams :=
  { downsample := 64, maximim_similar_mm := 3, minimum_dissimilar_mm := 1,
    num_similar_per_slide := 1, num_dissimilar_per_slide := 1,
    auto_skip := true }

/-- A slide with no resolution metadata at all. -/
def demoNoMppSlide : Slide :=
  { slide_id := "a", props := [], num_coords := 0, dmat := fun _ _ => 0 }

/-- A slide holding two patches at distance 2 mm from each other: under
`demoParams` it yields two similar and two dissimilar ordered pairs. -/
def demoGoodSlide : Slide :=
  { slide_id := "b", props := [("openslide.mpp-x", 1)], num_coords := 2,
    dmat := fun i j => if i = j then 0 else 2 }

/-- A slide with resolution metadata but no patches: both classifier
outputs are empty. -/
def demoEmptySlide : Slide :=
  { slide_id := "c", props := [("openslide.mpp-x", 1)], num_coords := 0,
    dmat := fun _ _ => 0 }

/-- A shard directory whose three files all open: one lacks the
`dissimilar` dataset, one is complete, one lacks both datasets. -/
def demoShardDir : ShardDir :=
  [("a", .noDis [(0, 1)]), ("b", .good [(2, 3)] [(4, 5)]), ("c", .noSim)]

/-- A shard directory of two complete shards with three and one pairs. -/
def demoGoodDir : ShardDir :=
  [("a", .good [(0, 1), (2, 3)] [(4, 5)]), ("b", .good [] [(6, 7)])]

/-! ### Helper lemmas -/

theorem mem_argwhere2 (n : ℕ) (p : ℕ → ℕ → Bool) (i j : ℕ) :
    (i, j) ∈ argwhere2 n p ↔ i < n ∧ j < n ∧ p i j = true := by
  simp only [argwhere2, List.mem_flatMap, List.mem_filterMap, List.mem_range]
  constructor
  · rintro ⟨a, ha, b, hb, hab⟩
    by_cases h : p a b <;> simp [h] at hab
    obtain ⟨rfl, rfl⟩ := hab
    exact ⟨ha, hb, h⟩
  · rintro ⟨hi, hj, hp⟩
    exact ⟨i, hi, j, hj, by simp [hp]⟩

theorem mem_similarPairs (n : ℕ) (d : ℕ → ℕ → ℚ) (m : ℚ) (i j : ℕ) :
    (i, j) ∈ similarPairs n d m ↔ i < n ∧ j < n ∧ (d i j < m ∧ 0 < d i j) := by
  rw [similarPairs, mem_argwhere2]
  simp [Bool.and_eq_true, decide_eq_true_iff]

theorem mem_dissimilarPairs (n : ℕ) (d : ℕ → ℕ → ℚ) (m : ℚ) (i j : ℕ) :
    (i, j) ∈ dissimilarPairs n d m ↔ i < n ∧ j < n ∧ m < d i j := by
  rw [dissimilarPairs, mem_argwhere2]
  simp [decide_eq_true_iff]

theorem cdistSq_symm (coords : List (ℚ × ℚ)) (i j : ℕ) :
    cdistSq coords i j = cdistSq coords j i := by
  unfold cdistSq; ring

theorem cdistSq_diag (coords : List (ℚ × ℚ)) (i : ℕ) :
    cdistSq coords i i = 0 := by
  unfold cdistSq; ring

/-- The actual distance matrix is `sqrt 2 * mm * sqrt (cdistSq coords i j)`,
i.e. the image of `cdistSq` under a fixed map `f` with `f 0 = 0`
(here `f q = sqrt 2 * mm * sqrt q`).  Any such matrix is symmetric with
zero diagonal, which discharges the matrix hypotheses of the
classifier-symmetry theorem for every matrix the miner actually
builds. -/
theorem scaled_cdist_symm_diag (coords : List (ℚ × ℚ)) (f : ℚ → ℚ)
    (hf0 : f 0 = 0) :
    (∀ i j, f (cdistSq coords i j) = f (cdistSq coords j i)) ∧
      (∀ i, f (cdistSq coords i i) = 0) := by
  constructor
  · intro i j; rw [cdistSq_symm]
  · intro i; rw [cdistSq_diag, hf0]

theorem dictInsert_fst_of_mem {κ α : Type} [DecidableEq κ]
    (l : List (κ × α)) (k : κ) (v : α)
    (h : l.any (fun e => decide (e.1 = k)) = true) :
    (dictInsert l k v).map Prod.fst = l.map Prod.fst := by
  unfold dictInsert
  rw [if_pos h, List.map_map]
  apply List.map_congr_left
  intro e _
  by_cases h' : e.1 = k
  · simp [h', Function.comp]
  · simp [h', Function.comp]

theorem dictInsert_fst_of_not_mem {κ α : Type} [DecidableEq κ]
    (l : List (κ × α)) (k : κ) (v : α)
    (h : l.any (fun e => decide (e.1 = k)) = false) :
    (dictInsert l k v).map Prod.fst = l.map Prod.fst ++ [k] := by
  unfold dictInsert
  rw [if_neg (by simp [h]), List.map_append]
  rfl

/-- One step of the index build preserves the partition property: the
new range `(n, n + c)` starts exactly at the previous total `n`. -/
theorem bucketsWF_insert (bs : List ((ℕ × ℕ) × String)) (n c : ℕ) (sid : String)
    (hb : ∀ r ∈ bs.map Prod.fst, r.1 ≤ r.2 ∧ r.2 ≤ n)
    (hc : ∀ g, g < n → ∃! r : ℕ × ℕ, r ∈ bs.map Prod.fst ∧ r.1 ≤ g ∧ g < r.2) :
    (∀ r ∈ (dictInsert bs (n, n + c) sid).map Prod.fst,
        r.1 ≤ r.2 ∧ r.2 ≤ n + c) ∧
      (∀ g, g < n + c →
        ∃! r : ℕ × ℕ, r ∈ (dictInsert bs (n, n + c) sid).map Prod.fst ∧
          r.1 ≤ g ∧ g < r.2) := by
  by_cases hmem : bs.any (fun e => decide (e.1 = (n, n + c))) = true
  · -- the key is already present: by the bounds invariant its stop is at
    -- most `n`, so `c = 0`, the key list is unchanged and so is the total
    have hk : (n, n + c) ∈ bs.map Prod.fst := by
      rw [List.any_eq_true] at hmem
      obtain ⟨e, he, hek⟩ := hmem
      rw [decide_eq_true_iff] at hek
      exact hek ▸ List.mem_map_of_mem Prod.fst he
    have hc0 : c = 0 := by
      have := (hb _ hk).2
      omega
    subst hc0
    rw [dictInsert_fst_of_mem _ _ _ hmem]
    exact ⟨fun r hr => (hb r hr).imp id (fun h => h.trans (Nat.le_add_right n 0)),
      fun g hg => by
        obtain ⟨r, hr, hu⟩ := hc g (by omega)
        exact ⟨r, hr, hu⟩⟩
  · rw [Bool.not_eq_true] at hmem
    rw [dictInsert_fst_of_not_mem _ _ _ hmem]
    constructor
    · intro r hr
      rcases List.mem_append.mp hr with h | h
      · exact ⟨(hb r h).1, (hb r h).2.trans (Nat.le_add_right n c)⟩
      · simp at h
        subst h
        omega
    · intro g hg
      rcases Nat.lt_or_ge g n with hgn | hgn
      · obtain ⟨r, ⟨hrm, hr1, hr2⟩, hu⟩ := hc g hgn
        refine ⟨r, ⟨List.mem_append_left _ hrm, hr1, hr2⟩, ?_⟩
        rintro r' ⟨hr'm, h1', h2'⟩
        rcases List.mem_append.mp hr'm with h | h
        · exact hu r' ⟨h, h1', h2'⟩
        · simp at h
          subst h
          omega
      · refine ⟨(n, n + c), ⟨List.mem_append_right _ (by simp), hgn, hg⟩, ?_⟩
        rintro r' ⟨hr'm, h1', h2'⟩
        rcases List.mem_append.mp hr'm with h | h
        · have := (hb r' h).2
          omega
        · simp at h
          exact h

/-- Running the index-build loop over a directory of shards that all
open: the build succeeds, the total grows by the sum of the per-shard
counts, the problem shards are exactly the reported ones, and the
partition property is preserved. -/
theorem buildAux_readable (dir : ShardDir) :
    ∀ st : IndexState, (∀ e ∈ dir, shardReadable e.2 = true) → bucketsWF st →
      ∃ st' : IndexState, buildAux dir st = .ok st' ∧
        st'.num_pairs = st.num_pairs + (dir.map (fun e => shardCount e.2)).sum ∧
        st'.reported =
          st.reported ++ (dir.filter (fun e => shardProblem e.2)).map Prod.fst ∧
        bucketsWF st' := by
  induction dir with
  | nil =>
    intro st _ hwf
    exact ⟨st, rfl, by simp, by simp, hwf⟩
  | cons e rest ih =>
    obtain ⟨sid, c⟩ := e
    intro st hread hwf
    have hrc : shardReadable c = true := hread (sid, c) (by simp)
    obtain ⟨st', h1, h2, h3, h4⟩ :=
      ih { buckets_to_slide :=
              dictInsert st.buckets_to_slide (st.num_pairs, st.num_pairs + shardCount c) sid
           num_pairs := st.num_pairs + shardCount c
           reported := st.reported ++ (if shardProblem c then [sid] else []) }
        (fun e he => hread e (List.mem_cons_of_mem _ he))
        (bucketsWF_insert st.buckets_to_slide st.num_pairs (shardCount c) sid
          hwf.1 hwf.2)
    refine ⟨st', ?_, ?_, ?_, h4⟩
    · simpa [buildAux, hrc] using h1
    · rw [h2]; simp; omega
    · rw [h3]
      by_cases hp : shardProblem c = true <;>
        simp [List.filter_cons, hp]

/-! ### Claim theorems -/

/-- C1: the claim says every `g` with `start ≤ g < stop` resolves
(inclusive of `start`), and out-of-range indices fail with a dedicated
range error.  The code compares with `index > bmin and index < bmax`,
so the first entry of every bucket is unreachable: in a directory with
one shard holding one similar pair, the dataset has length 1, yet
`get_bucket_from_index 0` finds no bucket at all and `__getitem__ 0`
dies with a `KeyError` (from `buckets_to_slide[None]`) instead of
returning the pair. -/
theorem C1_bucket_start_unreachable :
    buildIndex [("s", ShardContent.good [(0, 1)] [])] =
      .ok { buckets_to_slide := [((0, 1), "s")], num_pairs := 1, reported := [] } ∧
    get_bucket_from_index
      { buckets_to_slide := [((0, 1), "s")], num_pairs := 1, reported := [] } 0 = none ∧
    getitem [("s", ShardContent.good [(0, 1)] [])]
      { buckets_to_slide := [((0, 1), "s")], num_pairs := 1, reported := [] } 0 =
      .error .keyError := by
  refine ⟨rfl, rfl, rfl⟩

/-- C2: the claim says an in-range `g` is served from the category range
containing it at offset `g` minus that category range's start.  The code
computes `patch_index = index - bucket_start` once and, in the
dissimilar branch, indexes `f["dissimilar"][patch_index]` without
subtracting the similar count: with one similar pair and dissimilar
pairs `[(2,3), (4,5)]`, global index 1 falls in the dissimilar range at
category-local offset 0, yet the code returns the pair `(4, 5)`
(dissimilar entry 1) instead of `(2, 3)` (dissimilar entry 0). -/
theorem C2_dissimilar_offset_not_rebased :
    buildIndex [("s", ShardContent.good [(0, 1)] [(2, 3), (4, 5)])] =
      .ok { buckets_to_slide := [((0, 3), "s")], num_pairs := 3, reported := [] } ∧
    getitem [("s", ShardContent.good [(0, 1)] [(2, 3), (4, 5)])]
      { buckets_to_slide := [((0, 3), "s")], num_pairs := 3, reported := [] } 1 =
      .ok ("dissimilar", (4, 5)) ∧
    ((4, 5) : ℕ × ℕ) ≠ (2, 3) := by
  refine ⟨rfl, rfl, by decide⟩

/-- C3: the claim says the scale is `max(mpp_x, mpp_y) * D / 1000`.  The
source lists the property key `'openslide.mpp-x'` twice in `MPP_PROPS`
and never reads `'openslide.mpp-y'`, so for a slide with
`mpp_x = 1`, `mpp_y = 2` and `D = 64` the code produces
`1 * 64 / 1000 = 8/125` while the spec's formula gives
`2 * 64 / 1000 = 16/125`. -/
theorem C3_mpp_y_never_read :
    computeMmPerPixel [("openslide.mpp-x", 1), ("openslide.mpp-y", 2)] 64 =
      some (8 / 125) ∧
    specMmPerPixel 1 2 64 = 16 / 125 ∧
    ((8 : ℚ) / 125) ≠ 16 / 125 := by
  refine ⟨?_, by norm_num [specMmPerPixel], by norm_num⟩
  simp [computeMmPerPixel, MPP_PROPS, List.lookup, List.max?]
  norm_num

/-- C4 counterexample: the claim asserts, for every pair of thresholds,
that no pair is classified both similar and dissimilar.  With
`maximim_similar_mm = 3` and `minimum_dissimilar_mm = 1` the distance
value 2 satisfies both conditions, so the ordered pair `(0, 1)` (with
`0 ≠ 1`) lands in both collections. -/
theorem C4_overlapping_thresholds_pair_in_both :
    (0, 1) ∈ similarPairs 2 (fun _ _ => (2 : ℚ)) 3 ∧
    (0, 1) ∈ dissimilarPairs 2 (fun _ _ => (2 : ℚ)) 1 ∧
    (0 : ℕ) ≠ 1 := by
  refine ⟨by decide, by decide, by decide⟩

/-- C4 amended: for every distance matrix and thresholds, an ordered
pair `(i, j)` with `i, j < n`, `i ≠ j`, is classified similar exactly
when `0 < d i j < max_similar` and dissimilar exactly when
`d i j > min_dissimilar`; pairs satisfying neither appear in neither
collection; and provided `max_similar ≤ min_dissimilar` (true of the
defaults 20 and 100) no pair is classified both. -/
theorem C4_classifier_membership (n : ℕ) (d : ℕ → ℕ → ℚ)
    (maxsim mindis : ℚ) (i j : ℕ) (hi : i < n) (hj : j < n) (_hij : i ≠ j) :
    ((i, j) ∈ similarPairs n d maxsim ↔ 0 < d i j ∧ d i j < maxsim) ∧
    ((i, j) ∈ dissimilarPairs n d mindis ↔ mindis < d i j) ∧
    (maxsim ≤ mindis →
      ¬((i, j) ∈ similarPairs n d maxsim ∧ (i, j) ∈ dissimilarPairs n d mindis)) := by
  refine ⟨?_, ?_, ?_⟩
  · rw [mem_similarPairs]
    constructor
    · rintro ⟨-, -, h1, h2⟩; exact ⟨h2, h1⟩
    · rintro ⟨h2, h1⟩; exact ⟨hi, hj, h1, h2⟩
  · rw [mem_dissimilarPairs]
    constructor
    · rintro ⟨-, -, h⟩; exact h
    · intro h; exact ⟨hi, hj, h⟩
  · rintro hle ⟨hs, hd⟩
    rw [mem_similarPairs] at hs
    rw [mem_dissimilarPairs] at hd
    have := hs.2.2.1
    have := hd.2.2
    linarith

/-- C4 witness: the amended theorem applied at `n = 2`, the constant
distance matrix 2, thresholds 3 and 5, pair `(0, 1)`. -/
theorem C4_classifier_membership_witness :
    ((0, 1) ∈ similarPairs 2 (fun _ _ => (2 : ℚ)) 3 ↔
      (0 : ℚ) < 2 ∧ (2 : ℚ) < 3) ∧
    ((0, 1) ∈ dissimilarPairs 2 (fun _ _ => (2 : ℚ)) 5 ↔ (5 : ℚ) < 2) ∧
    ((3 : ℚ) ≤ 5 →
      ¬((0, 1) ∈ similarPairs 2 (fun _ _ => (2 : ℚ)) 3 ∧
        (0, 1) ∈ dissimilarPairs 2 (fun _ _ => (2 : ℚ)) 5)) :=
  C4_classifier_membership 2 (fun _ _ => (2 : ℚ)) 3 5 0 1
    (by decide) (by decide) (by decide)

/-- C5 counterexample: the claim says a missing or unreadable shard
never aborts the index build.  But `except (KeyError, ValueError)` does
not cover the `OSError` that `h5py.File` raises for an unopenable file,
so a directory whose first shard file is unreadable aborts dataset
construction outright and the perfectly good second shard is never
indexed. -/
theorem C5_unreadable_shard_aborts_build :
    buildIndex [("a", ShardContent.unreadable), ("b", ShardContent.good [(0, 1)] [])] =
      .error (.shardOpenError "a") := rfl

/-- C5 amended: a shard file that opens but lacks the expected
`similar`/`dissimilar` datasets is caught: it is reported (the
`"Problem with"` message) and contributes only the pairs counted before
the failure (zero when `similar` is missing, the similar count when
only `dissimilar` is missing), and every other shard is still indexed;
only a shard file that fails to open aborts the whole build. -/
theorem C5_key_errors_contained (dir : ShardDir)
    (hread : ∀ e ∈ dir, shardReadable e.2 = true) :
    ∃ st : IndexState, buildIndex dir = .ok st ∧
      st.reported = (dir.filter (fun e => shardProblem e.2)).map Prod.fst ∧
      st.num_pairs = (dir.map (fun e => shardCount e.2)).sum := by
  obtain ⟨st, h1, h2, h3, -⟩ :=
    buildAux_readable dir
      { buckets_to_slide := [], num_pairs := 0, reported := [] } hread
      ⟨by simp, fun g hg => absurd hg (Nat.not_lt_zero g)⟩
  exact ⟨st, h1, by simpa using h3, by simpa using h2⟩

/-- C5 witness: the amended theorem applied to `demoShardDir`, whose
shards all open but two of which lack datasets. -/
theorem C5_key_errors_contained_witness :
    (∀ e ∈ demoShardDir, shardReadable e.2 = true) ∧
    (∃ st : IndexState, buildIndex demoShardDir = .ok st ∧
      st.reported = (demoShardDir.filter (fun e => shardProblem e.2)).map Prod.fst ∧
      st.num_pairs = (demoShardDir.map (fun e => shardCount e.2)).sum) :=
  ⟨by decide, C5_key_errors_contained demoShardDir (by decide)⟩

/-- C6 counterexample: the claim says a per-slide failure never aborts
sibling slides.  But the mining loop raises a bare `Exception` for a
slide without resolution metadata, so with a metadata-less slide first
in the directory the run stops at once, no shard is written for the
healthy second slide — even though, run on its own, that slide mines
fine. -/
theorem C6_first_failure_aborts_batch :
    generate_patch_pairs demoParams [demoNoMppSlide, demoGoodSlide] [] =
      ([], some (.noMpp "a")) ∧
    generate_patch_pairs demoParams [demoGoodSlide] [] =
      ([("b", ([(0, 1), (1, 0)], [(0, 1), (1, 0)]))], none) := by
  refine ⟨rfl, rfl⟩

/-- C6 amended: a per-slide failure (missing resolution metadata or
insufficient pair counts) raises immediately and stops the batch run:
the error is surfaced as-is, shards written for earlier slides remain,
and no later slide is processed; there is no aggregate end-of-run
report. -/
theorem C6_error_stops_run (p : MineParams) (store : Store) (s : Slide)
    (rest : List Slide) (e : MineErr)
    (h : mineSlide p store s = .error e) :
    generate_patch_pairs p (s :: rest) store = (store, some e) := by
  simp [generate_patch_pairs, h]

/-- C6 witness: the amended theorem applied to the metadata-less slide
followed by a healthy slide. -/
theorem C6_error_stops_run_witness :
    mineSlide demoParams [] demoNoMppSlide = .error (.noMpp "a") ∧
    generate_patch_pairs demoParams [demoNoMppSlide, demoGoodSlide] [] =
      ([], some (.noMpp "a")) :=
  ⟨rfl, C6_error_stops_run demoParams [] demoNoMppSlide [demoGoodSlide]
    (.noMpp "a") rfl⟩

/-- C7: when a slide is actually processed (not skipped, metadata
present) and either category has fewer pairs than required, mining for
that slide fails with an error carrying the actual and required counts,
before anything is written: the store is returned exactly as it was, so
no partial shard is persisted for that slide. -/
theorem C7_insufficient_pairs_fail_without_persisting (p : MineParams)
    (store : Store) (s : Slide) (rest : List Slide)
    (hskip : (p.auto_skip && storeHas store s.slide_id) = false)
    (hmpp : (s.props.lookup (MPP_PROPS.getD 0 "")).isNone = false)
    (hfew : (similarPairs s.num_coords s.dmat p.maximim_similar_mm).length <
        p.num_similar_per_slide ∨
      (dissimilarPairs s.num_coords s.dmat p.minimum_dissimilar_mm).length <
        p.num_dissimilar_per_slide) :
    ∃ e : MineErr, mineSlide p store s = .error e ∧
      generate_patch_pairs p (s :: rest) store = (store, some e) ∧
      (e = .tooFewSimilar s.slide_id
          (similarPairs s.num_coords s.dmat p.maximim_similar_mm).length
          p.num_similar_per_slide ∨
        e = .tooFewDissimilar s.slide_id
          (dissimilarPairs s.num_coords s.dmat p.minimum_dissimilar_mm).length
          p.num_dissimilar_per_slide) := by
  obtain ⟨v, hv⟩ : ∃ v, s.props.lookup (MPP_PROPS.getD 0 "") = some v := by
    cases hL : s.props.lookup (MPP_PROPS.getD 0 "") with
    | none => rw [hL] at hmpp; simp at hmpp
    | some v => exact ⟨v, rfl⟩
  by_cases h1 : (similarPairs s.num_coords s.dmat p.maximim_similar_mm).length <
      p.num_similar_per_slide
  · have hms : mineSlide p store s =
        .error (.tooFewSimilar s.slide_id
          (similarPairs s.num_coords s.dmat p.maximim_similar_mm).length
          p.num_similar_per_slide) := by
      unfold mineSlide
      rw [if_neg (by simp [hskip]), hv, if_neg (by simp), if_pos h1]
    exact ⟨_, hms, by simp [generate_patch_pairs, hms], Or.inl rfl⟩
  · have h2 : (dissimilarPairs s.num_coords s.dmat p.minimum_dissimilar_mm).length <
        p.num_dissimilar_per_slide := hfew.resolve_left h1
    have hms : mineSlide p store s =
        .error (.tooFewDissimilar s.slide_id
          (dissimilarPairs s.num_coords s.dmat p.minimum_dissimilar_mm).length
          p.num_dissimilar_per_slide) := by
      unfold mineSlide
      rw [if_neg (by simp [hskip]), hv, if_neg (by simp), if_neg h1, if_pos h2]
    exact ⟨_, hms, by simp [generate_patch_pairs, hms], Or.inr rfl⟩

/-- C7 witness: the theorem applied to a slide with metadata but no
patches, which finds 0 similar pairs where 1 is required. -/
theorem C7_insufficient_pairs_witness :
    ((demoParams.auto_skip && storeHas [] demoEmptySlide.slide_id) = false) ∧
    ((demoEmptySlide.props.lookup (MPP_PROPS.getD 0 "")).isNone = false) ∧
    (∃ e : MineErr, mineSlide demoParams [] demoEmptySlide = .error e ∧
      generate_patch_pairs demoParams [demoEmptySlide] [] = ([], some e) ∧
      (e = .tooFewSimilar demoEmptySlide.slide_id
          (similarPairs demoEmptySlide.num_coords demoEmptySlide.dmat
            demoParams.maximim_similar_mm).length
          demoParams.num_similar_per_slide ∨
        e = .tooFewDissimilar demoEmptySlide.slide_id
          (dissimilarPairs demoEmptySlide.num_coords demoEmptySlide.dmat
            demoParams.minimum_dissimilar_mm).length
          demoParams.num_dissimilar_per_slide)) :=
  ⟨rfl, rfl,
    C7_insufficient_pairs_fail_without_persisting demoParams [] demoEmptySlide []
      rfl rfl (Or.inl (by decide))⟩

/-- C8: over a directory of well-formed shards (both datasets present),
the index build succeeds, `len(dataset) = num_pairs` equals the sum of
the per-shard similar-plus-dissimilar counts, and the bucket ranges are
ordered, bounded by the total, and cover every global index in
`[0, num_pairs)` exactly once — the partition has no gaps and no
overlaps. -/
theorem C8_buckets_partition (dir : ShardDir)
    (hgood : ∀ e ∈ dir, shardGood e.2 = true) :
    ∃ st : IndexState, buildIndex dir = .ok st ∧
      st.num_pairs = (dir.map (fun e => shardCount e.2)).sum ∧
      (∀ r ∈ st.buckets_to_slide.map Prod.fst, r.1 ≤ r.2 ∧ r.2 ≤ st.num_pairs) ∧
      (∀ g, g < st.num_pairs →
        ∃! r : ℕ × ℕ, r ∈ st.buckets_to_slide.map Prod.fst ∧
          r.1 ≤ g ∧ g < r.2) := by
  have hread : ∀ e ∈ dir, shardReadable e.2 = true := by
    intro e he
    have h := hgood e he
    cases hc : e.2 with
    | good sim dis => rfl
    | noSim => rw [hc] at h; simp [shardGood] at h
    | noDis sim => rw [hc] at h; simp [shardGood] at h
    | unreadable => rw [hc] at h; simp [shardGood] at h
  obtain ⟨st, h1, h2, -, h4⟩ :=
    buildAux_readable dir
      { buckets_to_slide := [], num_pairs := 0, reported := [] } hread
      ⟨by simp, fun g hg => absurd hg (Nat.not_lt_zero g)⟩
  exact ⟨st, h1, by simpa using h2, h4.1, h4.2⟩

/-- C8 witness: the theorem applied to `demoGoodDir`, two complete
shards with 2+1 and 0+1 pairs. -/
theorem C8_buckets_partition_witness :
    (∀ e ∈ demoGoodDir, shardGood e.2 = true) ∧
    (∃ st : IndexState, buildIndex demoGoodDir = .ok st ∧
      st.num_pairs = (demoGoodDir.map (fun e => shardCount e.2)).sum ∧
      (∀ r ∈ st.buckets_to_slide.map Prod.fst, r.1 ≤ r.2 ∧ r.2 ≤ st.num_pairs) ∧
      (∀ g, g < st.num_pairs →
        ∃! r : ℕ × ℕ, r ∈ st.buckets_to_slide.map Prod.fst ∧
          r.1 ≤ g ∧ g < r.2)) :=
  ⟨by decide, C8_buckets_partition demoGoodDir (by decide)⟩

/-- C9: with `auto_skip` enabled, a slide whose shard file already
exists is skipped before any work happens: its loop iteration returns
the store untouched (for every possible distance matrix and property
map of that slide, i.e. nothing slide-specific is computed), and a
whole run over already-present slides returns the store unchanged with
no error — the run is idempotent over already-present slides. -/
theorem C9_auto_skip_idempotent (p : MineParams) (store : Store)
    (hskip : p.auto_skip = true) :
    (∀ s : Slide, storeHas store s.slide_id = true →
      mineSlide p store s = .ok store) ∧
    (∀ slides : List Slide, (∀ s ∈ slides, storeHas store s.slide_id = true) →
      generate_patch_pairs p slides store = (store, none)) := by
  have hone : ∀ s : Slide, storeHas store s.slide_id = true →
      mineSlide p store s = .ok store := by
    intro s hs
    unfold mineSlide
    rw [if_pos (by simp [hskip, hs])]
  refine ⟨hone, ?_⟩
  intro slides
  induction slides with
  | nil => intro _; rfl
  | cons s rest ih =>
    intro hall
    show (match mineSlide p store s with
      | .error e => (store, some e)
      | .ok store2 => generate_patch_pairs p rest store2) = (store, none)
    rw [hone s (hall s (by simp))]
    exact ih (fun t ht => hall t (List.mem_cons_of_mem _ ht))

/-- C9 witness: the theorem applied to a store already holding a shard
for slide `"b"` and a run consisting of that single slide. -/
theorem C9_auto_skip_idempotent_witness :
    mineSlide demoParams [("b", ([], []))] demoGoodSlide =
      .ok [("b", ([], []))] ∧
    generate_patch_pairs demoParams [demoGoodSlide] [("b", ([], []))] =
      ([("b", ([], []))], none) :=
  ⟨(C9_auto_skip_idempotent demoParams [("b", ([], []))] rfl).1
      demoGoodSlide (by decide),
    (C9_auto_skip_idempotent demoParams [("b", ([], []))] rfl).2
      [demoGoodSlide] (by decide)⟩

/-- C10: for every distance matrix that is symmetric with zero
diagonal — `cdistSq_symm`, `cdistSq_diag` and `scaled_cdist_symm_diag`
show every matrix the miner builds is of this shape — both emitted
collections are closed under swapping the components of a pair, and,
provided `minimum_dissimilar_mm ≥ 0`, no self-pair `(i, i)` appears in
either collection. -/
theorem C10_swap_closed_no_self_pairs (n : ℕ) (d : ℕ → ℕ → ℚ)
    (maxsim mindis : ℚ)
    (hsym : ∀ i j, d i j = d j i) (hdiag : ∀ i, d i i = 0)
    (hmd : 0 ≤ mindis) :
    (∀ i j, (i, j) ∈ similarPairs n d maxsim ↔
      (j, i) ∈ similarPairs n d maxsim) ∧
    (∀ i j, (i, j) ∈ dissimilarPairs n d mindis ↔
      (j, i) ∈ dissimilarPairs n d mindis) ∧
    (∀ i, (i, i) ∉ similarPairs n d maxsim ∧
      (i, i) ∉ dissimilarPairs n d mindis) := by
  refine ⟨?_, ?_, ?_⟩
  · intro i j
    rw [mem_similarPairs, mem_similarPairs, hsym]
    tauto
  · intro i j
    rw [mem_dissimilarPairs, mem_dissimilarPairs, hsym]
    tauto
  · intro i
    constructor
    · rw [mem_similarPairs, hdiag]
      rintro ⟨-, -, -, h⟩
      exact lt_irrefl 0 h
    · rw [mem_dissimilarPairs, hdiag]
      rintro ⟨-, -, h⟩
      exact absurd h (not_lt.mpr hmd)

/-- C10 witness: the theorem applied to `n = 2`, the symmetric
zero-diagonal matrix of `demoGoodSlide`, thresholds 3 and 1, evaluated
at the pairs `(0, 1)`, `(1, 0)` and `(0, 0)`. -/
theorem C10_swap_closed_no_self_pairs_witness :
    ((0, 1) ∈ similarPairs 2 demoGoodSlide.dmat 3 ↔
      (1, 0) ∈ similarPairs 2 demoGoodSlide.dmat 3) ∧
    ((0, 1) ∈ dissimilarPairs 2 demoGoodSlide.dmat 1 ↔
      (1, 0) ∈ dissimilarPairs 2 demoGoodSlide.dmat 1) ∧
    ((0, 0) ∉ similarPairs 2 demoGoodSlide.dmat 3 ∧
      (0, 0) ∉ dissimilarPairs 2 demoGoodSlide.dmat 1) := by
  obtain ⟨hs, hd, hself⟩ :=
    C10_swap_closed_no_self_pairs 2 demoGoodSlide.dmat 3 1
      (by
        intro i j
        show (if i = j then (0 : ℚ) else 2) = (if j = i then (0 : ℚ) else 2)
        rcases eq_or_ne i j with rfl | h
        · rfl
        · rw [if_neg h, if_neg (Ne.symm h)])
      (by intro i; show (if i = i then (0 : ℚ) else 2) = 0; rw [if_pos rfl])
      (by norm_num)
  exact ⟨hs 0 1, hd 0 1, hself 0⟩

end CLAM
